import Mathlib

/-
Shallow embedding of the Blender "Measure panel" script (panel_measure.py).

Coordinates and scalar measurements are modelled over ℚ (the Python code
computes with floats; the exact-rational model captures the arithmetic the
code performs). Euclidean lengths, which need a square root, live in ℝ.
Host data that the script only reads (vertex coordinates, per-face derived
areas, selection flags, unit settings) is part of the snapshot data model.
-/

namespace MeasurePanel

/-- A 3D point / vector, as the script reads it from the host (`Vector`). -/
structure Point3 where
  x : ℚ
  y : ℚ
  z : ℚ
deriving DecidableEq

/-- Componentwise subtraction, `a - b` on host vectors. -/
def Point3.sub (a b : Point3) : Point3 :=
  ⟨a.x - b.x, a.y - b.y, a.z - b.z⟩

/-- Cross product, host `Vector.cross`. -/
def Point3.cross (a b : Point3) : Point3 :=
  ⟨a.y * b.z - a.z * b.y, a.z * b.x - a.x * b.z, a.x * b.y - a.y * b.x⟩

/-- Dot product, host `Vector.dot`. -/
def Point3.dot (a b : Point3) : ℚ :=
  a.x * b.x + a.y * b.y + a.z * b.z

/-- Squared Euclidean norm of a vector (rational, hence computable). -/
def Point3.sqNorm (a : Point3) : ℚ :=
  a.x ^ 2 + a.y ^ 2 + a.z ^ 2

/-- Euclidean norm, host `Vector.length`. -/
noncomputable def Point3.length (a : Point3) : ℝ :=
  Real.sqrt ((a.sqNorm : ℚ) : ℝ)

/-- A 4×4 object matrix (`obj.matrix`); the script only passes it to the
host (`mesh.transform`, vector-times-matrix products), never reads entries. -/
def Mat4 : Type := Fin 4 → Fin 4 → ℚ

/-- Row-vector-times-matrix application of an object matrix to a point
(the host convention `v * M` with homogeneous coordinate 1). -/
def applyMat (m : Mat4) (p : Point3) : Point3 :=
  ⟨p.x * m 0 0 + p.y * m 1 0 + p.z * m 2 0 + m 3 0,
   p.x * m 0 1 + p.y * m 1 1 + p.z * m 2 1 + m 3 1,
   p.x * m 0 2 + p.y * m 1 2 + p.z * m 2 2 + m 3 2⟩

/-- A mesh vertex: its coordinates (`v.co`) and selection flag (`v.selected`). -/
structure MVert where
  co : Point3
  selected : Bool
deriving DecidableEq

/-- A mesh face: an ordered list of vertex indices into the parent mesh's
vertex list (`face.verts`), the host-derived scalar polygon area
(`face.area`), and the selection flag (`face.selected`). -/
structure Face where
  verts : List Nat
  area : ℚ
  selected : Bool
deriving DecidableEq

/-- A mesh snapshot: vertex list and face list (`mesh.verts`, `mesh.faces`). -/
structure Mesh where
  verts : List MVert
  faces : List Face
deriving DecidableEq

/-- Modelled from the spec: the host call `mesh.transform(matrix)` produces a
disposable transformed copy of the mesh by applying the matrix to every
vertex coordinate. (`face.area` is host-derived data; this snapshot model
carries it unchanged, and no theorem below depends on post-transform areas.) -/
def Mesh.transform (m : Mesh) (mat : Mat4) : Mesh :=
  { m with verts := m.verts.map (fun v => { v with co := applyMat mat v.co }) }

/-- Scene unit settings (`scene.unit_settings`). -/
structure UnitSettings where
  system : String
  scale_length : ℚ

/-- The scene fields the script reads. -/
structure Scene where
  unit_settings : UnitSettings
  measure_panel_transform : String
  cursor_location : Point3

/-- A scene object: `obj.type`, `obj.data` (mesh data, if any),
`obj.location`, `obj.matrix`, `obj.name`. -/
structure Obj where
  type : String
  data : Option Mesh
  location : Point3
  matrix : Mat4
  name : String

/-- `measureGlobal(scene)`: whether the panel's space dropdown is Global. -/
def measureGlobal (scene : Scene) : Bool :=
  scene.measure_panel_transform == "measure_global"

/-- `measureLocal(scene)`: whether the panel's space dropdown is Local. -/
def measureLocal (scene : Scene) : Bool :=
  scene.measure_panel_transform == "measure_local"

/-- `VIEW3D_PT_measure.units(degree)`: unit label for the scene's unit
system, with a `^degree` suffix when `0 < degree < 4`. -/
def units (scene : Scene) (degree : Int) : String :=
  let unit :=
    if scene.unit_settings.system == "METRIC" then "m"
    else if scene.unit_settings.system == "IMPERIAL" then "yd"
    else "BU"
  if 0 < degree ∧ degree < 4 then unit ++ "^" ++ toString degree
  else unit

/-- `VIEW3D_PT_measure.objectSurfaceArea(obj, selectedOnly, globalSpace)`:
if the object is a mesh with data, sum `face.area` over the faces passing
`not selectedOnly or face.selected` — on a transformed copy of the mesh when
`globalSpace` — and multiply by `scale_length ** 2`; otherwise return `-1`. -/
def objectSurfaceArea (scene : Scene) (obj : Obj) (selectedOnly globalSpace : Bool) : ℚ :=
  if obj.type == "MESH" && obj.data.isSome then
    let data := obj.data.getD ⟨[], []⟩
    let mesh := if globalSpace then data.transform obj.matrix else data
    let areaTotal :=
      mesh.faces.foldl
        (fun acc face => if !selectedOnly || face.selected then acc + face.area else acc) 0
    areaTotal * scene.unit_settings.scale_length ^ 2
  else
    -1

/-- The body of `objectVolume`'s loop for one face:
`mesh.verts[face.verts[0]].co.cross(mesh.verts[face.verts[1]].co).dot(mesh.verts[face.verts[2]].co)`.
Out-of-range index accesses (which raise in Python but never occur on
well-formed host meshes) default to the zero vertex. -/
def tripleProduct (mesh : Mesh) (face : Face) : ℚ :=
  let v : Nat → Point3 := fun i =>
    (mesh.verts.getD (face.verts.getD i 0) ⟨⟨0, 0, 0⟩, false⟩).co
  ((v 0).cross (v 1)).dot (v 2)

/-- The face loop of `objectVolume`: accumulate the triple products, but
return early (`none`, the code's `return -1`) as soon as a face has more
than 3 vertices. -/
def volLoop (mesh : Mesh) : List Face → ℚ → Option ℚ
  | [], volume => some volume
  | face :: rest, volume =>
    if 3 < face.verts.length then none
    else volLoop mesh rest (volume + tripleProduct mesh face)

/-- `VIEW3D_PT_measure.objectVolume(obj, globalSpace)`: `-1` unless the
object is a mesh with data; otherwise sum the scalar triple products over all
faces of a (possibly transformed) copy of the mesh, returning `-1` on the
first face with more than 3 vertices, and finally divide by 6 and multiply
by `scale_length ** 3`. -/
def objectVolume (scene : Scene) (obj : Obj) (globalSpace : Bool) : ℚ :=
  if !(obj.type == "MESH" && obj.data.isSome) then -1
  else
    let data := obj.data.getD ⟨[], []⟩
    let mesh := if globalSpace then data.transform obj.matrix else data
    match volLoop mesh mesh.faces 0 with
    | none => -1
    | some volume => volume / 6 * scene.unit_settings.scale_length ^ 3

/-- `VIEW3D_PT_measure.addAreasAndVolumes(*objs)`: fold over the objects,
adding `objectSurfaceArea(o, False, globalCoords)` to the running total area
when it is `>= 0` and `objectVolume(o, globalCoords)` to the running total
volume when it is `>= 0` (the code also emits a UI label row per object and
per total; the model returns the pair of accumulated totals). -/
def addAreasAndVolumes (scene : Scene) (objs : List Obj) : ℚ × ℚ :=
  let globalCoords := measureGlobal scene
  objs.foldl
    (fun t o =>
      let area := objectSurfaceArea scene o false globalCoords
      let ta := if 0 ≤ area then t.1 + area else t.1
      let volume := objectVolume scene o globalCoords
      let tv := if 0 ≤ volume then t.2 + volume else t.2
      (ta, tv))
    (0, 0)

/-- Python exceptions that the panel's `draw` can raise. -/
inductive PyErr where
  | attributeError (attrName : String)
  | nameError (varName : String)
deriving DecidableEq

/-- Outcome of an object-mode dispatcher branch: the value written to
`scene.measure_panel_dist` before the branch finished, and the exception (if
any) escaping the branch. -/
structure TwoObjectsOutcome where
  dist : ℝ
  err : Option PyErr

/-- Object-mode branch for exactly two selected objects
(`VIEW3D_PT_measure.draw`, the `len(context.selected_objects) == 2` case):
it stores `(obj1.location - obj2.location).length` into
`scene.measure_panel_dist`, then evaluates
`self.addAreasAndVolumes(mesh_objects)` — but the local variable
`mesh_objects` is bound only in the preceding more-than-2-objects branch of
the same if/elif chain, so here it is unbound and Python raises
`UnboundLocalError` (a `NameError`) before any area/volume row is shown. -/
noncomputable def objectModeTwoSelected (scene : Scene) (obj1 obj2 : Obj) : TwoObjectsOutcome :=
  { dist := (obj1.location.sub obj2.location).length
    err := some (PyErr.nameError "mesh_objects") }

/-- Edit-mode branch for exactly two selected vertices
(`VIEW3D_PT_measure.draw`, the `len(verts_selected) == 2` case): in Local
space it stores `(verts_selected[0].co - verts_selected[1].co).length`; in
the other (Global) branch the code computes
`((verts_selected[0].co - verts_selected[1].co) * ob_mat)` and then accesses
the misspelled attribute `lentgh`, so Python raises `AttributeError` and
nothing is stored. -/
noncomputable def editModeTwoSelected (scene : Scene) (ob_mat : Mat4) (v0 v1 : MVert) :
    Except PyErr ℝ :=
  if measureLocal scene then
    Except.ok ((v0.co.sub v1.co).length)
  else
    Except.error (PyErr.attributeError "lentgh")

/-! ### Concrete fixtures -/

/-- The identity object matrix. -/
def idMat : Mat4 := fun i j => if i = j then 1 else 0

/-- A scene with generic units, unit scale and the Local space setting. -/
def unitScene : Scene :=
  { unit_settings := { system := "NONE", scale_length := 1 }
    measure_panel_transform := "measure_local"
    cursor_location := ⟨0, 0, 0⟩ }

/-- A unit cube mesh: 8 vertices and 12 outward-wound triangular faces. -/
def cubeMesh : Mesh :=
  { verts :=
      [⟨⟨0, 0, 0⟩, false⟩, ⟨⟨1, 0, 0⟩, false⟩, ⟨⟨1, 1, 0⟩, false⟩, ⟨⟨0, 1, 0⟩, false⟩,
       ⟨⟨0, 0, 1⟩, false⟩, ⟨⟨1, 0, 1⟩, false⟩, ⟨⟨1, 1, 1⟩, false⟩, ⟨⟨0, 1, 1⟩, false⟩]
    faces :=
      [⟨[0, 3, 2], 1/2, false⟩, ⟨[0, 2, 1], 1/2, false⟩,
       ⟨[4, 5, 6], 1/2, false⟩, ⟨[4, 6, 7], 1/2, false⟩,
       ⟨[0, 1, 5], 1/2, false⟩, ⟨[0, 5, 4], 1/2, false⟩,
       ⟨[2, 3, 7], 1/2, false⟩, ⟨[2, 7, 6], 1/2, false⟩,
       ⟨[0, 4, 7], 1/2, false⟩, ⟨[0, 7, 3], 1/2, false⟩,
       ⟨[1, 2, 6], 1/2, false⟩, ⟨[1, 6, 5], 1/2, false⟩] }

/-- A mesh object carrying the unit cube, at the origin. -/
def cubeObj : Obj :=
  { type := "MESH", data := some cubeMesh, location := ⟨0, 0, 0⟩, matrix := idMat
    name := "Cube" }

/-- A mesh whose second face is a quad (the first is a triangle). -/
def quadMesh : Mesh :=
  { verts :=
      [⟨⟨0, 0, 0⟩, false⟩, ⟨⟨1, 0, 0⟩, false⟩, ⟨⟨1, 1, 0⟩, false⟩, ⟨⟨0, 1, 0⟩, false⟩]
    faces := [⟨[0, 1, 2], 1/2, false⟩, ⟨[0, 1, 2, 3], 1, false⟩] }

/-- A mesh object carrying `quadMesh`. -/
def quadObj : Obj :=
  { type := "MESH", data := some quadMesh, location := ⟨0, 0, 0⟩, matrix := idMat
    name := "Plane" }

/-! ### Helper lemmas -/

/-- The mesh transform touches only vertex coordinates; faces are unchanged. -/
theorem Mesh.transform_faces (m : Mesh) (mat : Mat4) :
    (m.transform mat).faces = m.faces := rfl

/-- When every face is a triangle (or smaller), the volume loop returns the
accumulated sum of triple products. -/
theorem volLoop_eq_sum (mesh : Mesh) (faces : List Face) :
    ∀ acc : ℚ, (∀ f ∈ faces, ¬ 3 < f.verts.length) →
      volLoop mesh faces acc = some (acc + (faces.map (tripleProduct mesh)).sum) := by
  induction faces with
  | nil => intro acc _; simp [volLoop]
  | cons face rest ih =>
    intro acc h
    have hface : ¬ 3 < face.verts.length := h face (List.mem_cons_self face rest)
    have hrest : ∀ f ∈ rest, ¬ 3 < f.verts.length :=
      fun f hf => h f (List.mem_cons_of_mem face hf)
    simp only [volLoop, if_neg hface, ih _ hrest, List.map_cons, List.sum_cons]
    congr 1
    ring

/-- If some face has more than three vertices, the volume loop aborts. -/
theorem volLoop_none (mesh : Mesh) (faces : List Face) :
    ∀ acc : ℚ, (∃ f ∈ faces, 3 < f.verts.length) →
      volLoop mesh faces acc = none := by
  induction faces with
  | nil =>
    rintro acc ⟨f, hf, _⟩
    exact absurd hf (List.not_mem_nil f)
  | cons face rest ih =>
    rintro acc ⟨f, hf, hlen⟩
    by_cases hface : 3 < face.verts.length
    · simp [volLoop, hface]
    · have hfr : f ∈ rest := by
        rcases List.mem_cons.mp hf with h | h
        · exact absurd (h ▸ hlen) hface
        · exact h
      simp only [volLoop, if_neg hface]
      exact ih _ ⟨f, hfr, hlen⟩

/-- On a mesh object whose faces are all triangles, `objectVolume` computes
the scaled sixth of the summed triple products (shared helper). -/
theorem objectVolume_triangles_spec (scene : Scene) (obj : Obj) (mesh : Mesh) (gs : Bool)
    (htype : obj.type = "MESH") (hdata : obj.data = some mesh)
    (htri : ∀ f ∈ mesh.faces, f.verts.length = 3) :
    objectVolume scene obj gs =
      ((if gs then mesh.transform obj.matrix else mesh).faces.map
          (tripleProduct (if gs then mesh.transform obj.matrix else mesh))).sum / 6
        * scene.unit_settings.scale_length ^ 3 := by
  have hfaces : (if gs then mesh.transform obj.matrix else mesh).faces = mesh.faces := by
    cases gs <;> simp [Mesh.transform_faces]
  have hloop :
      volLoop (if gs then mesh.transform obj.matrix else mesh)
          (if gs then mesh.transform obj.matrix else mesh).faces 0 =
        some (0 + ((if gs then mesh.transform obj.matrix else mesh).faces.map
          (tripleProduct (if gs then mesh.transform obj.matrix else mesh))).sum) := by
    apply volLoop_eq_sum
    intro f hf
    rw [hfaces] at hf
    rw [htri f hf]
    omega
  unfold objectVolume
  rw [htype, hdata]
  simp only [beq_self_eq_true, Option.isSome_some, Bool.and_self, Bool.not_true,
    Bool.false_eq_true, if_false, Option.getD_some]
  rw [hloop]
  rw [zero_add]

/-! ### Claims about `objectVolume` -/

/-- Claim C1: for every mesh object all of whose faces are triangles
(exactly 3 vertex indices each), `objectVolume` returns the sum over faces
of the scalar triple product `(v0 × v1) · v2` of the face's three vertex
coordinates, divided by 6 and multiplied by `scale_length ^ 3`. -/
theorem objectVolume_all_triangles (scene : Scene) (obj : Obj) (mesh : Mesh) (gs : Bool)
    (htype : obj.type = "MESH") (hdata : obj.data = some mesh)
    (htri : ∀ f ∈ mesh.faces, f.verts.length = 3) :
    objectVolume scene obj gs =
      ((if gs then mesh.transform obj.matrix else mesh).faces.map
          (tripleProduct (if gs then mesh.transform obj.matrix else mesh))).sum / 6
        * scene.unit_settings.scale_length ^ 3 :=
  objectVolume_triangles_spec scene obj mesh gs htype hdata htri

/-- Claim C1 witness: the unit cube of 12 outward-wound triangles, with unit
scale, has volume exactly 1. -/
theorem objectVolume_all_triangles_witness :
    objectVolume unitScene cubeObj false = 1 := by
  rw [objectVolume_all_triangles unitScene cubeObj cubeMesh false rfl rfl (by decide)]
  simp only [Bool.false_eq_true, if_false]
  rw [show (cubeMesh.faces.map (tripleProduct cubeMesh)).sum = 6 from by
    norm_num [cubeMesh, tripleProduct, Point3.cross, Point3.dot, List.sum_cons]]
  show (6 : ℚ) / 6 * (1 : ℚ) ^ 3 = 1
  norm_num

/-- Claim C2: for every mesh object, as soon as any face has more than 3
vertex indices, `objectVolume` returns the `-1` sentinel (it never
triangulates the offending face). In the total Lean model no exception is
possible, matching the code's exception-free early `return -1`. -/
theorem objectVolume_nontriangular (scene : Scene) (obj : Obj) (mesh : Mesh) (gs : Bool)
    (htype : obj.type = "MESH") (hdata : obj.data = some mesh)
    (hquad : ∃ f ∈ mesh.faces, 3 < f.verts.length) :
    objectVolume scene obj gs = -1 := by
  have hfaces : (if gs then mesh.transform obj.matrix else mesh).faces = mesh.faces := by
    cases gs <;> simp [Mesh.transform_faces]
  have hloop :
      volLoop (if gs then mesh.transform obj.matrix else mesh)
          (if gs then mesh.transform obj.matrix else mesh).faces 0 = none := by
    apply volLoop_none
    rw [hfaces]
    exact hquad
  unfold objectVolume
  rw [htype, hdata]
  simp only [beq_self_eq_true, Option.isSome_some, Bool.and_self, Bool.not_true,
    Bool.false_eq_true, if_false, Option.getD_some]
  rw [hloop]

/-- Claim C2 witness: a mesh with one triangle and one quad is reported as
unsupported (`-1`). -/
theorem objectVolume_nontriangular_witness :
    objectVolume unitScene quadObj false = -1 :=
  objectVolume_nontriangular unitScene quadObj quadMesh false rfl rfl (by decide)

/-! ### Claims about `objectSurfaceArea` -/

/-- A mesh with 4 faces, 2 of them selected (areas 2 and 3); the unselected
faces have areas 10 and 20. -/
def fourFaceMesh : Mesh :=
  { verts := []
    faces :=
      [⟨[0, 1, 2], 2, true⟩, ⟨[0, 1, 2], 10, false⟩,
       ⟨[0, 1, 2], 3, true⟩, ⟨[0, 1, 2], 20, false⟩] }

/-- Like `fourFaceMesh` but with different areas on the unselected faces. -/
def fourFaceMeshB : Mesh :=
  { verts := []
    faces :=
      [⟨[0, 1, 2], 2, true⟩, ⟨[0, 1, 2], 100, false⟩,
       ⟨[0, 1, 2], 3, true⟩, ⟨[0, 1, 2], 200, false⟩] }

/-- A mesh object carrying `fourFaceMesh`. -/
def fourFaceObj : Obj :=
  { type := "MESH", data := some fourFaceMesh, location := ⟨0, 0, 0⟩, matrix := idMat
    name := "Grid" }

/-- A mesh object carrying `fourFaceMeshB`. -/
def fourFaceObjB : Obj :=
  { type := "MESH", data := some fourFaceMeshB, location := ⟨0, 0, 0⟩, matrix := idMat
    name := "Grid.001" }

/-- A non-mesh object without mesh data. -/
def cameraObj : Obj :=
  { type := "CAMERA", data := none, location := ⟨0, 0, 0⟩, matrix := idMat
    name := "Camera" }

/-- The area-accumulating loop of `objectSurfaceArea` sums the areas of
exactly the faces passing the selection filter. -/
theorem areaFold (selectedOnly : Bool) (faces : List Face) :
    ∀ acc : ℚ,
      faces.foldl
          (fun acc face => if !selectedOnly || face.selected then acc + face.area else acc) acc
        = acc + ((faces.filter (fun f => !selectedOnly || f.selected)).map Face.area).sum := by
  induction faces with
  | nil => intro acc; simp
  | cons face rest ih =>
    intro acc
    by_cases h : (!selectedOnly || face.selected) = true
    · simp only [List.foldl_cons, if_pos h, List.filter_cons, h, if_true, List.map_cons,
        List.sum_cons, ih]
      ring
    · simp only [List.foldl_cons, if_neg h, List.filter_cons, h, Bool.false_eq_true, if_false]
      exact ih acc

/-- On a mesh object, `objectSurfaceArea` is the scaled sum of the areas of
the faces passing the selection filter (shared helper). -/
theorem objectSurfaceArea_eq (scene : Scene) (obj : Obj) (mesh : Mesh)
    (selectedOnly globalSpace : Bool)
    (htype : obj.type = "MESH") (hdata : obj.data = some mesh) :
    objectSurfaceArea scene obj selectedOnly globalSpace =
      (((if globalSpace then mesh.transform obj.matrix else mesh).faces.filter
          (fun f => !selectedOnly || f.selected)).map Face.area).sum
        * scene.unit_settings.scale_length ^ 2 := by
  unfold objectSurfaceArea
  rw [htype, hdata]
  simp only [beq_self_eq_true, Option.isSome_some, Bool.and_self, if_true, Option.getD_some]
  rw [areaFold, zero_add]

/-- Claim C3: for every mesh object, `objectSurfaceArea` returns the sum of
`face.area` over exactly the faces with `selected = true` when
`selectedOnly` (over all faces otherwise), multiplied by `scale_length ^ 2`;
and with `selectedOnly` the result depends only on the selected faces'
areas, independent of the unselected faces. -/
theorem objectSurfaceArea_selected_filter :
    (∀ (scene : Scene) (obj : Obj) (mesh : Mesh) (selectedOnly globalSpace : Bool),
        obj.type = "MESH" → obj.data = some mesh →
        objectSurfaceArea scene obj selectedOnly globalSpace =
          (((if globalSpace then mesh.transform obj.matrix else mesh).faces.filter
              (fun f => !selectedOnly || f.selected)).map Face.area).sum
            * scene.unit_settings.scale_length ^ 2)
    ∧ (∀ (scene : Scene) (obj1 obj2 : Obj) (mesh1 mesh2 : Mesh) (globalSpace : Bool),
        obj1.type = "MESH" → obj1.data = some mesh1 →
        obj2.type = "MESH" → obj2.data = some mesh2 →
        (mesh1.faces.filter (fun f => f.selected)).map Face.area
          = (mesh2.faces.filter (fun f => f.selected)).map Face.area →
        objectSurfaceArea scene obj1 true globalSpace
          = objectSurfaceArea scene obj2 true globalSpace) := by
  constructor
  · intro scene obj mesh selectedOnly globalSpace htype hdata
    exact objectSurfaceArea_eq scene obj mesh selectedOnly globalSpace htype hdata
  · intro scene obj1 obj2 mesh1 mesh2 globalSpace ht1 hd1 ht2 hd2 hsame
    rw [objectSurfaceArea_eq scene obj1 mesh1 true globalSpace ht1 hd1,
      objectSurfaceArea_eq scene obj2 mesh2 true globalSpace ht2 hd2]
    have e1 : (if globalSpace then mesh1.transform obj1.matrix else mesh1).faces
        = mesh1.faces := by cases globalSpace <;> rfl
    have e2 : (if globalSpace then mesh2.transform obj2.matrix else mesh2).faces
        = mesh2.faces := by cases globalSpace <;> rfl
    have hp : (fun f : Face => !true || f.selected) = (fun f : Face => f.selected) := by
      funext f
      simp
    rw [e1, e2, hp, hsame]

/-- Claim C3 witness: with `selectedOnly` on a mesh with 2 of 4 faces
selected (areas 2 and 3), the result is 5, and it is unchanged when the
unselected faces' areas change. -/
theorem objectSurfaceArea_selected_filter_witness :
    objectSurfaceArea unitScene fourFaceObj true false = 5 ∧
      objectSurfaceArea unitScene fourFaceObj true false
        = objectSurfaceArea unitScene fourFaceObjB true false := by
  constructor
  · rw [objectSurfaceArea_selected_filter.1 unitScene fourFaceObj fourFaceMesh true false rfl
      rfl]
    simp only [Bool.false_eq_true, if_false]
    norm_num [fourFaceMesh, unitScene, List.filter_cons, List.sum_cons]
  · exact objectSurfaceArea_selected_filter.2 unitScene fourFaceObj fourFaceObjB fourFaceMesh
      fourFaceMeshB false rfl rfl rfl rfl rfl

/-- Claim C4: `objectSurfaceArea` returns the `-1` sentinel exactly on
objects that are not meshes or lack mesh data; on a mesh object with data
(and host-derived nonnegative face areas) it returns a nonnegative computed
area, never the sentinel. -/
theorem objectSurfaceArea_sentinel :
    (∀ (scene : Scene) (obj : Obj) (selectedOnly globalSpace : Bool),
        ¬(obj.type = "MESH" ∧ obj.data.isSome = true) →
        objectSurfaceArea scene obj selectedOnly globalSpace = -1)
    ∧ (∀ (scene : Scene) (obj : Obj) (mesh : Mesh) (selectedOnly globalSpace : Bool),
        obj.type = "MESH" → obj.data = some mesh →
        (∀ f ∈ mesh.faces, 0 ≤ f.area) →
        0 ≤ objectSurfaceArea scene obj selectedOnly globalSpace ∧
          objectSurfaceArea scene obj selectedOnly globalSpace ≠ -1) := by
  constructor
  · intro scene obj selectedOnly globalSpace h
    unfold objectSurfaceArea
    rw [if_neg]
    simp only [Bool.and_eq_true, beq_iff_eq]
    exact h
  · intro scene obj mesh selectedOnly globalSpace htype hdata hpos
    rw [objectSurfaceArea_eq scene obj mesh selectedOnly globalSpace htype hdata]
    have hfa : (if globalSpace then mesh.transform obj.matrix else mesh).faces
        = mesh.faces := by cases globalSpace <;> rfl
    have hnn :
        0 ≤ (((if globalSpace then mesh.transform obj.matrix else mesh).faces.filter
            (fun f => !selectedOnly || f.selected)).map Face.area).sum := by
      apply List.sum_nonneg
      intro x hx
      rcases List.mem_map.mp hx with ⟨f, hf, rfl⟩
      rw [hfa] at hf
      exact hpos f (List.mem_filter.mp hf).1
    have hres := mul_nonneg hnn (sq_nonneg scene.unit_settings.scale_length)
    refine ⟨hres, ?_⟩
    intro hbad
    rw [hbad] at hres
    norm_num at hres

/-- Claim C4 witness: a camera object yields the sentinel; a concrete mesh
object yields a nonnegative area distinct from the sentinel. -/
theorem objectSurfaceArea_sentinel_witness :
    objectSurfaceArea unitScene cameraObj false false = -1 ∧
      0 ≤ objectSurfaceArea unitScene fourFaceObj true false ∧
      objectSurfaceArea unitScene fourFaceObj true false ≠ -1 := by
  refine ⟨?_, ?_, ?_⟩
  · exact objectSurfaceArea_sentinel.1 unitScene cameraObj false false (by decide)
  · exact (objectSurfaceArea_sentinel.2 unitScene fourFaceObj fourFaceMesh true false rfl rfl
      (by norm_num [fourFaceMesh])).1
  · exact (objectSurfaceArea_sentinel.2 unitScene fourFaceObj fourFaceMesh true false rfl rfl
      (by norm_num [fourFaceMesh])).2

/-! ### Claims about `addAreasAndVolumes` -/

/-- The totals the claim describes: per-object areas and volumes are kept
exactly when they are nonnegative, and the kept values are summed. -/
def keptTotals (scene : Scene) (objs : List Obj) : ℚ × ℚ :=
  (((objs.map (fun o => objectSurfaceArea scene o false (measureGlobal scene))).filter
      (fun q => decide (0 ≤ q))).sum,
   ((objs.map (fun o => objectVolume scene o (measureGlobal scene))).filter
      (fun q => decide (0 ≤ q))).sum)

/-- The aggregation fold of `addAreasAndVolumes`, for any starting totals,
adds exactly the nonnegative per-object results (shared helper). -/
theorem addAreasAndVolumes_foldl (scene : Scene) (objs : List Obj) :
    ∀ t : ℚ × ℚ,
      objs.foldl
          (fun t o =>
            let area := objectSurfaceArea scene o false (measureGlobal scene)
            let ta := if 0 ≤ area then t.1 + area else t.1
            let volume := objectVolume scene o (measureGlobal scene)
            let tv := if 0 ≤ volume then t.2 + volume else t.2
            (ta, tv)) t
        = (t.1 + (keptTotals scene objs).1, t.2 + (keptTotals scene objs).2) := by
  induction objs with
  | nil => intro t; simp [keptTotals]
  | cons o rest ih =>
    intro t
    simp only [List.foldl_cons]
    rw [ih]
    simp only [keptTotals, List.map_cons, List.filter_cons]
    by_cases ha : 0 ≤ objectSurfaceArea scene o false (measureGlobal scene) <;>
      by_cases hv : 0 ≤ objectVolume scene o (measureGlobal scene) <;>
        simp [ha, hv] <;> ring_nf <;> simp [add_comm, add_left_comm]

/-- `addAreasAndVolumes` computes exactly the kept totals (shared helper). -/
theorem addAreasAndVolumes_spec (scene : Scene) (objs : List Obj) :
    addAreasAndVolumes scene objs = keptTotals scene objs := by
  unfold addAreasAndVolumes
  rw [addAreasAndVolumes_foldl]
  simp

/-- Claim C5: for every list of objects, `addAreasAndVolumes` adds an
object's area to the total area, and its volume to the total volume, only
when that per-object result is `>= 0`; objects yielding a negative
(Unsupported) result are skipped, and the total-returning model shows the
aggregate never aborts. -/
theorem addAreasAndVolumes_skips_unsupported :
    ∀ (scene : Scene) (objs : List Obj),
      addAreasAndVolumes scene objs = keptTotals scene objs :=
  fun scene objs => addAreasAndVolumes_spec scene objs

/-- A one-triangle mesh wound so that its signed volume is negative. -/
def negTriMesh : Mesh :=
  { verts := [⟨⟨0, 1, 0⟩, false⟩, ⟨⟨1, 0, 0⟩, false⟩, ⟨⟨0, 0, 1⟩, false⟩]
    faces := [⟨[0, 1, 2], 1/2, false⟩] }

/-- A mesh object carrying `negTriMesh`. -/
def negTriObj : Obj :=
  { type := "MESH", data := some negTriMesh, location := ⟨0, 0, 0⟩, matrix := idMat
    name := "NegTri" }

/-- Claim C10: the accumulated totals are always nonnegative, and an object
whose per-object volume is negative — whether the `-1` sentinel or a genuine
negative signed volume — contributes nothing to the total volume. -/
theorem addAreasAndVolumes_nonneg_totals :
    (∀ (scene : Scene) (objs : List Obj),
        0 ≤ (addAreasAndVolumes scene objs).1 ∧ 0 ≤ (addAreasAndVolumes scene objs).2)
    ∧ (∀ (scene : Scene) (o : Obj) (objs : List Obj),
        objectVolume scene o (measureGlobal scene) < 0 →
        (addAreasAndVolumes scene (o :: objs)).2 = (addAreasAndVolumes scene objs).2) := by
  constructor
  · intro scene objs
    rw [addAreasAndVolumes_spec]
    constructor
    · apply List.sum_nonneg
      intro x hx
      exact of_decide_eq_true (List.mem_filter.mp hx).2
    · apply List.sum_nonneg
      intro x hx
      exact of_decide_eq_true (List.mem_filter.mp hx).2
  · intro scene o objs h
    rw [addAreasAndVolumes_spec, addAreasAndVolumes_spec]
    simp only [keptTotals, List.map_cons, List.filter_cons,
      decide_eq_true_eq, not_le.mpr h, if_false]

/-- Claim C10 witness: the consistently inward-wound triangle has signed
volume `-1/6 < 0` and is excluded from the total volume exactly like an
unsupported object. -/
theorem addAreasAndVolumes_nonneg_totals_witness :
    objectVolume unitScene negTriObj (measureGlobal unitScene) < 0 ∧
      (addAreasAndVolumes unitScene [negTriObj]).2
        = (addAreasAndVolumes unitScene []).2 := by
  have hv : objectVolume unitScene negTriObj (measureGlobal unitScene) < 0 := by
    rw [objectVolume_triangles_spec unitScene negTriObj negTriMesh (measureGlobal unitScene)
      rfl rfl (by decide)]
    rw [show measureGlobal unitScene = false from rfl]
    simp only [Bool.false_eq_true, if_false]
    rw [show (negTriMesh.faces.map (tripleProduct negTriMesh)).sum = -1 from by
      norm_num [negTriMesh, tripleProduct, Point3.cross, Point3.dot, List.sum_cons]]
    show (-1 : ℚ) / 6 * (1 : ℚ) ^ 3 < 0
    norm_num
  exact ⟨hv, addAreasAndVolumes_nonneg_totals.2 unitScene negTriObj [] hv⟩

/-! ### Claims about the selection dispatcher -/

/-- A scene like `unitScene` but with the Global space setting. -/
def globalScene : Scene :=
  { unit_settings := { system := "NONE", scale_length := 1 }
    measure_panel_transform := "measure_global"
    cursor_location := ⟨0, 0, 0⟩ }

/-- A mesh object located at world position (3, 4, 0). -/
def objAt340 : Obj :=
  { type := "MESH", data := some cubeMesh, location := ⟨3, 4, 0⟩, matrix := idMat
    name := "Cube.001" }

/-- A selected vertex at local coordinates (0, 0, 0). -/
def vert000 : MVert := ⟨⟨0, 0, 0⟩, true⟩

/-- A selected vertex at local coordinates (1, 1, 1). -/
def vert111 : MVert := ⟨⟨1, 1, 1⟩, true⟩

/-- Claim C6 (code bug evidence): with exactly 2 objects selected at
(0,0,0) and (3,4,0), the branch stores distance 5.0, but then raises
`UnboundLocalError` on the unbound local `mesh_objects` instead of
displaying the two objects' areas and volumes. -/
theorem objectModeTwoSelected_unbound_local :
    (objectModeTwoSelected unitScene cubeObj objAt340).dist = 5 ∧
      (objectModeTwoSelected unitScene cubeObj objAt340).err
        = some (PyErr.nameError "mesh_objects") := by
  constructor
  · show (cubeObj.location.sub objAt340.location).length = 5
    have h : (cubeObj.location.sub objAt340.location).sqNorm = 25 := by
      norm_num [cubeObj, objAt340, Point3.sub, Point3.sqNorm]
    rw [Point3.length, h]
    rw [show (((25 : ℚ)) : ℝ) = (25 : ℝ) from by norm_num]
    rw [show (25 : ℝ) = 5 ^ 2 from by norm_num]
    exact Real.sqrt_sq (by norm_num)
  · rfl

/-- Claim C7 (code bug evidence): with 2 selected vertices at (0,0,0) and
(1,1,1), the Local branch stores the distance `sqrt 3`, but the Global
branch raises `AttributeError` on the misspelled `lentgh` instead of
storing a distance. -/
theorem editModeTwoSelected_typo :
    editModeTwoSelected unitScene idMat vert000 vert111 = Except.ok (Real.sqrt 3) ∧
      editModeTwoSelected globalScene idMat vert000 vert111
        = Except.error (PyErr.attributeError "lentgh") := by
  constructor
  · unfold editModeTwoSelected
    rw [if_pos (show measureLocal unitScene = true from rfl)]
    have h : (vert000.co.sub vert111.co).sqNorm = 3 := by
      norm_num [vert000, vert111, Point3.sub, Point3.sqNorm]
    rw [Point3.length, h]
    norm_num
  · unfold editModeTwoSelected
    rw [if_neg]
    decide

/-- Claim C9: the distance computation `(a - b).length` is symmetric and
identically zero on equal points. -/
theorem distance_symm_zero :
    ∀ a b : Point3, (a.sub b).length = (b.sub a).length ∧ (a.sub a).length = 0 := by
  intro a b
  refine ⟨?_, ?_⟩
  · have h : (a.sub b).sqNorm = (b.sub a).sqNorm := by
      simp only [Point3.sub, Point3.sqNorm]
      ring
    rw [Point3.length, Point3.length, h]
  · have h : (a.sub a).sqNorm = 0 := by
      simp only [Point3.sub, Point3.sqNorm]
      ring
    rw [Point3.length, h]
    simp

/-! ### Claims about the unit label -/

/-- A Metric scene with unit scale. -/
def metricScene : Scene :=
  { unit_settings := { system := "METRIC", scale_length := 1 }
    measure_panel_transform := "measure_global"
    cursor_location := ⟨0, 0, 0⟩ }

/-- The unit label exactly as the claim words it: base unit by system, with
the `^power` suffix exactly when the power is 2 or 3. -/
def unitLabelClaimed (system : String) (power : Int) : String :=
  let unit :=
    if system == "METRIC" then "m"
    else if system == "IMPERIAL" then "yd"
    else "BU"
  if power = 2 ∨ power = 3 then unit ++ "^" ++ toString power else unit

/-- The unit label as amended: the `^power` suffix appears exactly when the
power is 1, 2 or 3 (the code suffixes whenever `0 < power < 4`, so power 1
yields for example "m^1", not the bare unit). -/
def unitLabelAmended (system : String) (power : Int) : String :=
  let unit :=
    if system == "METRIC" then "m"
    else if system == "IMPERIAL" then "yd"
    else "BU"
  if power = 1 ∨ power = 2 ∨ power = 3 then unit ++ "^" ++ toString power else unit

/-- Claim C8 counterexample: for the Metric system and power 1 the code
yields "m^1", while the claim demands the bare "m". -/
theorem units_power_one_counterexample :
    units metricScene 1 = "m^1" ∧ unitLabelClaimed "METRIC" 1 = "m" ∧
      units metricScene 1 ≠ unitLabelClaimed "METRIC" 1 := by
  refine ⟨?_, ?_, ?_⟩ <;> decide

/-- Claim C8 (amended): for every scene and integer power, `units` returns
"m" for Metric, "yd" for Imperial and "BU" otherwise, suffixed with
`^power` exactly when the power is 1, 2 or 3. -/
theorem units_eq_amended :
    ∀ (scene : Scene) (degree : Int),
      units scene degree = unitLabelAmended scene.unit_settings.system degree := by
  intro scene degree
  have h : (0 < degree ∧ degree < 4) ↔ (degree = 1 ∨ degree = 2 ∨ degree = 3) := by omega
  simp only [units, unitLabelAmended]
  by_cases hc : 0 < degree ∧ degree < 4
  · rw [if_pos hc, if_pos (h.mp hc)]
  · rw [if_neg hc, if_neg (fun hh => hc (h.mpr hh))]

end MeasurePanel
